import Mathlib

/-!
Shallow embedding of `cargo-kubos` (src/main.rs), a command-line wrapper
that converts a Kubos target identifier to a Rust target triplet, looks up
an optional linker override in `$CARGO_HOME/config`, and delegates to a
`cargo` child process, forwarding the child's exit status.

The embedding models:
  * `target_converter` (panic modelled as `Except.error` carrying the
    panic message that the Rust code formats);
  * `cargo_linker` over an explicit system environment `SysEnv`
    (environment variable, file read, TOML parse are external effects,
    passed in as fields; the TOML value navigation `get`/`as_str` is
    modelled on a TOML value tree);
  * `cargo_command` split into the pure invocation description it builds
    (`cargo_command_invocation`) and the exit-forwarding logic
    (`cargo_command_exit`);
  * the argument assembly of `main` (`collect_extra_params`,
    `main_invocation`).
-/

/-- Constant `X86_TARGET_STR` from the source. -/
def X86_TARGET_STR : String := "x86-linux-native"

/-- Tail of the panic message of `target_converter`, after the offending
target name: it enumerates the four supported identifiers. -/
def panic_message_tail : String :=
  "\x27 not supported for cargo/yotta builds\nCurrently supported targets are:\nx86-linux-native\nkubos-linux-beaglebone-gcc\nkubos-linux-pumpkin-mbm2-gcc\nkubos-linux-isis-gcc"

/-- Panic message formatted by `target_converter` for an unsupported
target, as produced by the Rust `format!` of the source. -/
def panic_message (kubos_target : String) : String :=
  ("Target \x27" ++ kubos_target) ++ panic_message_tail

/-- Embedding of `target_converter`: maps a Kubos target identifier to a
Rust/Clang target triplet; the Rust `panic!` on an unknown identifier is
modelled as `Except.error` carrying the panic message. -/
def target_converter (kubos_target : String) : Except String String :=
  if kubos_target = X86_TARGET_STR then
    Except.ok "x86_64-unknown-linux-gnu"
  else if kubos_target = "kubos-linux-beaglebone-gcc" then
    Except.ok "arm-unknown-linux-gnueabihf"
  else if kubos_target = "kubos-linux-pumpkin-mbm2-gcc" then
    Except.ok "arm-unknown-linux-gnueabihf"
  else if kubos_target = "kubos-linux-isis-gcc" then
    Except.ok "armv5te-unknown-linux-gnueabi"
  else
    Except.error (panic_message kubos_target)

/-- The four supported Kubos target identifiers, in the order the source
lists them. -/
def supported_targets : List String :=
  [X86_TARGET_STR, "kubos-linux-beaglebone-gcc",
   "kubos-linux-pumpkin-mbm2-gcc", "kubos-linux-isis-gcc"]

/-- TOML value tree, restricted to what `cargo_linker` navigates: string
leaves, tables, and a constructor `other` for every other TOML value kind
(integers, arrays, ...), on which both `get` with a string key and
`as_str` yield `none`, as in the `toml` crate. -/
inductive TomlValue where
  | str (s : String)
  | table (entries : List (String × TomlValue))
  | other
deriving Repr

/-- Embedding of `toml::Value::get` with a string index: a lookup in a
table, `none` on any non-table value. -/
def TomlValue.get : TomlValue → String → Option TomlValue
  | TomlValue.table entries, key => List.lookup key entries
  | TomlValue.str _, _ => none
  | TomlValue.other, _ => none

/-- Embedding of `toml::Value::as_str`: the string of a string value,
`none` otherwise. -/
def TomlValue.as_str : TomlValue → Option String
  | TomlValue.str s => some s
  | TomlValue.table _ => none
  | TomlValue.other => none

/-- System environment that `cargo_linker` reads: the result of
`env::var("CARGO_HOME")`, of `fs::read_to_string` on a path, and of
parsing a string as TOML. Each is external to the program and is passed
in; errors carry the error's display string, as the source maps every
error through `format!`. -/
structure SysEnv where
  cargo_home_var : Except String String
  read_to_string : String → Except String String
  parse_toml : String → Except String TomlValue

/-- Embedding of `cargo_linker`: the `?`-chain of the source, each stage
written as an explicit match so every failure point is visible. -/
def cargo_linker (sys : SysEnv) (target : String) : Except String String :=
  match sys.cargo_home_var with
  | Except.error e => Except.error e
  | Except.ok cargo_home =>
    match sys.read_to_string (cargo_home ++ "/config") with
    | Except.error e => Except.error e
    | Except.ok data =>
      match sys.parse_toml data with
      | Except.error e => Except.error e
      | Except.ok cfg =>
        match cfg.get "target" with
        | none => Except.error "no targets defined"
        | some targets =>
          match targets.get target with
          | none => Except.error ("target " ++ target ++ " not defined")
          | some tgt =>
            match tgt.get "linker" with
            | none => Except.error "no linker found"
            | some linker =>
              match linker.as_str with
              | none => Except.error "could not convert linker to string"
              | some s => Except.ok s

/-- Description of the child process invocation that `cargo_command`
builds: program name, argument list, the environment variables the
wrapper sets on the child, and whether each standard stream is inherited
from the parent. -/
structure Invocation where
  program : String
  args : List String
  env_vars : List (String × String)
  stdin_inherited : Bool
  stdout_inherited : Bool
  stderr_inherited : Bool
deriving Repr, DecidableEq

/-- Embedding of the invocation-building part of `cargo_command`:
`params` is `[command, "--target", target] ++ extra_params`; the linker
is looked up for `params[2]` and, when found, injected as `CC`, `CXX`
and `PKG_CONFIG_ALLOW_CROSS`; stdio is inherited. -/
def cargo_command_invocation (sys : SysEnv) (target command : String)
    (extra_params : List String) : Invocation :=
  let params := [command, "--target", target] ++ extra_params
  let env_vars :=
    match cargo_linker sys (params.getD 2 "") with
    | Except.ok linker =>
        [("CC", linker), ("CXX", linker), ("PKG_CONFIG_ALLOW_CROSS", "1")]
    | Except.error _ => []
  { program := "cargo"
    args := params
    env_vars := env_vars
    stdin_inherited := true
    stdout_inherited := true
    stderr_inherited := true }

/-- Exit status of the child process, as Rust's `ExitStatus` exposes it:
`exited c` when `status.code()` is `Some(c)` (normal exit), `signaled`
when it is `None` (terminated abnormally, e.g. by a signal). -/
inductive ExitStatus where
  | exited (code : Int)
  | signaled
deriving Repr, DecidableEq

/-- Embedding of `ExitStatus::success`: a normal exit with code 0. -/
def ExitStatus.success : ExitStatus → Bool
  | ExitStatus.exited c => c == 0
  | ExitStatus.signaled => false

/-- Embedding of `ExitStatus::code`. -/
def ExitStatus.code : ExitStatus → Option Int
  | ExitStatus.exited c => some c
  | ExitStatus.signaled => none

/-- How the wrapper process itself terminates: `exitCode c` for an
explicit `exit(c)`, `panicked` for a Rust panic (the `unwrap` on a
code-less status), which ends the process with the interpreter-default
nonzero failure status rather than any child-derived code. -/
inductive WrapperExit where
  | exitCode (c : Int)
  | panicked
deriving Repr, DecidableEq

/-- Embedding of the exit-forwarding tail of `cargo_command`:
`exit(0)` on success, otherwise `exit(status.code().unwrap())`, the
`unwrap` panicking when the child has no exit code. -/
def cargo_command_exit (status : ExitStatus) : WrapperExit :=
  if status.success then WrapperExit.exitCode 0
  else
    match status.code with
    | some c => WrapperExit.exitCode c
    | none => WrapperExit.panicked

/-- Embedding of the extra-parameter collection of `main`: when the free
arguments are nonempty, every token equal to `"kubos"` is removed; an
empty list stays empty. -/
def collect_extra_params (free : List String) : List String :=
  if free.isEmpty then []
  else free.filter (fun x => x ≠ "kubos")

/-- Embedding of the non-help tail of `main` after flag parsing: the
target identifier defaults to `X86_TARGET_STR` when the `-t` flag is
absent, is converted (a conversion panic is `Except.error`), and the
invocation description is built. -/
def main_invocation (sys : SysEnv) (opt_target : Option String)
    (command : String) (free : List String) : Except String Invocation :=
  let extra_params := collect_extra_params free
  let k_target := opt_target.getD X86_TARGET_STR
  match target_converter k_target with
  | Except.error e => Except.error e
  | Except.ok c_target =>
      Except.ok (cargo_command_invocation sys c_target command extra_params)

/-- String append is associative (on the list-of-characters model of
`String`). -/
theorem string_append_assoc (a b c : String) :
    a ++ b ++ c = a ++ (b ++ c) := by
  cases a with
  | mk la =>
    cases b with
    | mk lb =>
      cases c with
      | mk lc =>
        show String.mk (la ++ lb ++ lc) = String.mk (la ++ (lb ++ lc))
        rw [List.append_assoc]

/-- Helper: the panic message of an unsupported target `s` contains any
given middle string `mid`, provided the fixed tail decomposes around it. -/
theorem panic_message_split (s p1 p2 mid : String)
    (h : panic_message_tail = p1 ++ (mid ++ p2)) :
    panic_message s = (("Target \x27" ++ s) ++ p1) ++ (mid ++ p2) := by
  have hm : panic_message s = ("Target \x27" ++ s) ++ panic_message_tail := rfl
  rw [hm, h]
  exact (string_append_assoc _ _ _).symm

/-- C2: each of the four supported Kubos target identifiers converts to
exactly the expected Rust triplet. -/
theorem c2_target_converter_table :
    target_converter "x86-linux-native" = Except.ok "x86_64-unknown-linux-gnu" ∧
    target_converter "kubos-linux-beaglebone-gcc" =
      Except.ok "arm-unknown-linux-gnueabihf" ∧
    target_converter "kubos-linux-pumpkin-mbm2-gcc" =
      Except.ok "arm-unknown-linux-gnueabihf" ∧
    target_converter "kubos-linux-isis-gcc" =
      Except.ok "armv5te-unknown-linux-gnueabi" :=
  ⟨rfl, rfl, rfl, rfl⟩

/-- C3: on every input outside the four-element supported set,
`target_converter` fails (the modelled panic) with a message that
contains each of the four supported identifiers as a substring. -/
theorem c3_target_converter_unsupported (s : String)
    (h : s ∉ supported_targets) :
    target_converter s = Except.error (panic_message s) ∧
    ∀ t ∈ supported_targets, ∃ p q, panic_message s = p ++ (t ++ q) := by
  simp only [supported_targets, X86_TARGET_STR, List.mem_cons,
    List.not_mem_nil, or_false, not_or] at h
  obtain ⟨h1, h2, h3, h4⟩ := h
  constructor
  · simp [target_converter, X86_TARGET_STR, h1, h2, h3, h4]
  · intro t ht
    simp only [supported_targets, X86_TARGET_STR, List.mem_cons,
      List.not_mem_nil, or_false] at ht
    rcases ht with rfl | rfl | rfl | rfl
    · exact ⟨("Target \x27" ++ s) ++
        "\x27 not supported for cargo/yotta builds\nCurrently supported targets are:\n",
        "\nkubos-linux-beaglebone-gcc\nkubos-linux-pumpkin-mbm2-gcc\nkubos-linux-isis-gcc",
        panic_message_split s _ _ _ rfl⟩
    · exact ⟨("Target \x27" ++ s) ++
        "\x27 not supported for cargo/yotta builds\nCurrently supported targets are:\nx86-linux-native\n",
        "\nkubos-linux-pumpkin-mbm2-gcc\nkubos-linux-isis-gcc",
        panic_message_split s _ _ _ rfl⟩
    · exact ⟨("Target \x27" ++ s) ++
        "\x27 not supported for cargo/yotta builds\nCurrently supported targets are:\nx86-linux-native\nkubos-linux-beaglebone-gcc\n",
        "\nkubos-linux-isis-gcc",
        panic_message_split s _ _ _ rfl⟩
    · exact ⟨("Target \x27" ++ s) ++
        "\x27 not supported for cargo/yotta builds\nCurrently supported targets are:\nx86-linux-native\nkubos-linux-beaglebone-gcc\nkubos-linux-pumpkin-mbm2-gcc\n",
        "",
        panic_message_split s _ _ _ rfl⟩

/-- Witness for C3 at the concrete unsupported input `"bogus"`. -/
theorem c3_witness :
    "bogus" ∉ supported_targets ∧
    (target_converter "bogus" = Except.error (panic_message "bogus") ∧
     ∀ t ∈ supported_targets, ∃ p q, panic_message "bogus" = p ++ (t ++ q)) :=
  ⟨by decide, c3_target_converter_unsupported "bogus" (by decide)⟩

/-- C1: a child that exits normally with code `n` makes the wrapper exit
with exactly `n` (code 0 goes through the `exit(0)` success branch, any
other code through `exit(status.code().unwrap())`). -/
theorem c1_exit_code_forwarded (n : Int) :
    cargo_command_exit (ExitStatus.exited n) = WrapperExit.exitCode n := by
  by_cases h : n = 0
  · subst h; rfl
  · simp [cargo_command_exit, ExitStatus.success, ExitStatus.code, h]

/-- C6: a child terminated without an exit code (e.g. by a signal) has
`code() = None`, and the wrapper ends by the `unwrap` panic, i.e. with
the generic interpreter-default failure status, not a forwarded code. -/
theorem c6_signal_generic_failure :
    ExitStatus.signaled.code = none ∧
    cargo_command_exit ExitStatus.signaled = WrapperExit.panicked :=
  ⟨rfl, rfl⟩

/-- Unfolding equation for the environment variables of the built
invocation: they are determined by the linker lookup on the target
(which is `params[2]`). -/
theorem cargo_command_invocation_env_vars (sys : SysEnv)
    (target command : String) (extra_params : List String) :
    (cargo_command_invocation sys target command extra_params).env_vars =
      match cargo_linker sys target with
      | Except.ok linker =>
          [("CC", linker), ("CXX", linker), ("PKG_CONFIG_ALLOW_CROSS", "1")]
      | Except.error _ => [] := rfl

/-- C4: when the linker lookup for the triplet succeeds with `s`, the
child is launched with `CC = s`, `CXX = s` and
`PKG_CONFIG_ALLOW_CROSS = "1"`. -/
theorem c4_linker_env_injected (sys : SysEnv) (target command : String)
    (extra_params : List String) (s : String)
    (h : cargo_linker sys target = Except.ok s) :
    (cargo_command_invocation sys target command extra_params).env_vars =
      [("CC", s), ("CXX", s), ("PKG_CONFIG_ALLOW_CROSS", "1")] := by
  rw [cargo_command_invocation_env_vars, h]

/-- Concrete system environment in which the linker lookup succeeds:
`CARGO_HOME` is set, the config file is readable, and it parses to a
TOML table with a string linker for the x86 triplet. -/
def sysW : SysEnv where
  cargo_home_var := Except.ok "/home/user/.cargo"
  read_to_string := fun path =>
    if path = "/home/user/.cargo/config" then
      Except.ok "[target.x86_64-unknown-linux-gnu]\nlinker = \x22x86-gcc\x22\n"
    else Except.error "No such file or directory (os error 2)"
  parse_toml := fun _ =>
    Except.ok (TomlValue.table
      [("target", TomlValue.table
        [("x86_64-unknown-linux-gnu", TomlValue.table
          [("linker", TomlValue.str "x86-gcc")])])])

/-- Concrete system environment in which the linker lookup fails at its
first stage: `CARGO_HOME` is not set. -/
def sysFail : SysEnv where
  cargo_home_var := Except.error "environment variable not found"
  read_to_string := fun _ => Except.error "No such file or directory (os error 2)"
  parse_toml := fun _ => Except.error "expected an equals, found an identifier at line 1"

/-- Witness for C4: in `sysW` the lookup succeeds with `"x86-gcc"` and
the three variables are set to it. -/
theorem c4_witness :
    cargo_linker sysW "x86_64-unknown-linux-gnu" = Except.ok "x86-gcc" ∧
    (cargo_command_invocation sysW "x86_64-unknown-linux-gnu" "build" []).env_vars =
      [("CC", "x86-gcc"), ("CXX", "x86-gcc"), ("PKG_CONFIG_ALLOW_CROSS", "1")] :=
  ⟨rfl, c4_linker_env_injected sysW "x86_64-unknown-linux-gnu" "build" [] "x86-gcc" rfl⟩

/-- C5: `cargo_linker` returns `Ok s` exactly when every stage of the
chain succeeds: `CARGO_HOME` is set, `$CARGO_HOME/config` reads, the
contents parse as TOML, a `target` table exists, it has a section for
the triplet, that section has a `linker` key, and the value is the
string `s`. -/
theorem c5_linker_lookup_chain (sys : SysEnv) (t s : String) :
    cargo_linker sys t = Except.ok s ↔
      ∃ home data cfg targets tgt linker,
        sys.cargo_home_var = Except.ok home ∧
        sys.read_to_string (home ++ "/config") = Except.ok data ∧
        sys.parse_toml data = Except.ok cfg ∧
        cfg.get "target" = some targets ∧
        targets.get t = some tgt ∧
        tgt.get "linker" = some linker ∧
        linker.as_str = some s := by
  constructor
  · intro h
    unfold cargo_linker at h
    split at h
    · simp at h
    rename_i home hhome
    split at h
    · simp at h
    rename_i data hdata
    split at h
    · simp at h
    rename_i cfg hcfg
    split at h
    · simp at h
    rename_i targets htargets
    split at h
    · simp at h
    rename_i tgt htgt
    split at h
    · simp at h
    rename_i linker hlinker
    split at h
    · simp at h
    rename_i s2 hs2
    injection h with h
    subst h
    exact ⟨home, data, cfg, targets, tgt, linker,
      hhome, hdata, hcfg, htargets, htgt, hlinker, hs2⟩
  · rintro ⟨home, data, cfg, targets, tgt, linker,
      h1, h2, h3, h4, h5, h6, h7⟩
    unfold cargo_linker
    simp only [h1, h2, h3, h4, h5, h6, h7]

/-- C9: when the linker lookup fails, the child is still launched with
none of the three variables set, and everything else about the
invocation (program, argument list, inherited stdio) is exactly what it
is under any other system environment, including one where the override
succeeds. -/
theorem c9_no_override_frame (sys sys2 : SysEnv) (target command : String)
    (extra_params : List String) (e : String)
    (h : cargo_linker sys target = Except.error e) :
    (cargo_command_invocation sys target command extra_params).env_vars = [] ∧
    (cargo_command_invocation sys target command extra_params).program =
      (cargo_command_invocation sys2 target command extra_params).program ∧
    (cargo_command_invocation sys target command extra_params).args =
      (cargo_command_invocation sys2 target command extra_params).args ∧
    (cargo_command_invocation sys target command extra_params).stdin_inherited =
      (cargo_command_invocation sys2 target command extra_params).stdin_inherited ∧
    (cargo_command_invocation sys target command extra_params).stdout_inherited =
      (cargo_command_invocation sys2 target command extra_params).stdout_inherited ∧
    (cargo_command_invocation sys target command extra_params).stderr_inherited =
      (cargo_command_invocation sys2 target command extra_params).stderr_inherited := by
  refine ⟨?_, rfl, rfl, rfl, rfl, rfl⟩
  rw [cargo_command_invocation_env_vars, h]

/-- Witness for C9: `sysFail` makes the lookup fail at `CARGO_HOME`, and
the invocation equals the `sysW` one in everything but the variables. -/
theorem c9_witness :
    (cargo_command_invocation sysFail "x86_64-unknown-linux-gnu" "build"
      ["-v"]).env_vars = [] ∧
    (cargo_command_invocation sysFail "x86_64-unknown-linux-gnu" "build"
      ["-v"]).program =
      (cargo_command_invocation sysW "x86_64-unknown-linux-gnu" "build"
        ["-v"]).program ∧
    (cargo_command_invocation sysFail "x86_64-unknown-linux-gnu" "build"
      ["-v"]).args =
      (cargo_command_invocation sysW "x86_64-unknown-linux-gnu" "build"
        ["-v"]).args ∧
    (cargo_command_invocation sysFail "x86_64-unknown-linux-gnu" "build"
      ["-v"]).stdin_inherited =
      (cargo_command_invocation sysW "x86_64-unknown-linux-gnu" "build"
        ["-v"]).stdin_inherited ∧
    (cargo_command_invocation sysFail "x86_64-unknown-linux-gnu" "build"
      ["-v"]).stdout_inherited =
      (cargo_command_invocation sysW "x86_64-unknown-linux-gnu" "build"
        ["-v"]).stdout_inherited ∧
    (cargo_command_invocation sysFail "x86_64-unknown-linux-gnu" "build"
      ["-v"]).stderr_inherited =
      (cargo_command_invocation sysW "x86_64-unknown-linux-gnu" "build"
        ["-v"]).stderr_inherited :=
  c9_no_override_frame sysFail sysW "x86_64-unknown-linux-gnu" "build"
    ["-v"] "environment variable not found" rfl

/-- C7: the collected extra parameters are exactly the free arguments
with every token equal to `"kubos"` removed; hence no `"kubos"` token is
forwarded and the forwarded tokens form a sublist of the original list,
in their original relative order. -/
theorem c7_kubos_token_stripped (free : List String) :
    collect_extra_params free = free.filter (fun x => x ≠ "kubos") ∧
    (∀ x ∈ collect_extra_params free, x ≠ "kubos") ∧
    List.Sublist (collect_extra_params free) free := by
  have h : collect_extra_params free = free.filter (fun x => x ≠ "kubos") := by
    cases free with
    | nil => rfl
    | cons a l => rfl
  refine ⟨h, ?_, ?_⟩
  · intro x hx
    rw [h] at hx
    simpa using (List.mem_filter.mp hx).2
  · rw [h]
    exact List.filter_sublist free

/-- C8: with the target flag absent, the Kubos target defaults to
`x86-linux-native`, it resolves to `x86_64-unknown-linux-gnu`, and the
built invocation carries that triplet right after `--target`. -/
theorem c8_default_target (sys : SysEnv) (command : String)
    (free : List String) :
    Option.getD none X86_TARGET_STR = "x86-linux-native" ∧
    target_converter X86_TARGET_STR = Except.ok "x86_64-unknown-linux-gnu" ∧
    main_invocation sys none command free =
      Except.ok (cargo_command_invocation sys "x86_64-unknown-linux-gnu"
        command (collect_extra_params free)) ∧
    (cargo_command_invocation sys "x86_64-unknown-linux-gnu" command
      (collect_extra_params free)).args =
      command :: "--target" :: "x86_64-unknown-linux-gnu" ::
        collect_extra_params free :=
  ⟨rfl, rfl, rfl, rfl⟩

/-- C10: the resolver is not injective: the beaglebone and pumpkin-mbm2
identifiers are distinct yet resolve to the same triplet, so the whole
run (linker lookup included) is identical for the two identifiers. -/
theorem c10_converter_not_injective :
    ("kubos-linux-beaglebone-gcc" : String) ≠ "kubos-linux-pumpkin-mbm2-gcc" ∧
    target_converter "kubos-linux-beaglebone-gcc" =
      target_converter "kubos-linux-pumpkin-mbm2-gcc" ∧
    target_converter "kubos-linux-beaglebone-gcc" =
      Except.ok "arm-unknown-linux-gnueabihf" ∧
    ∀ (sys : SysEnv) (command : String) (free : List String),
      main_invocation sys (some "kubos-linux-beaglebone-gcc") command free =
        main_invocation sys (some "kubos-linux-pumpkin-mbm2-gcc") command free :=
  ⟨by decide, rfl, rfl, fun _ _ _ => rfl⟩
